import Mathlib

/-!
Shallow embedding of `custom_components/hatchrest/__init__.py`
(the hatchrest Home Assistant integration): the polling coordinator
(`HatchRestCoordinator`), the base entity adapter (`HatchRestEntity`),
and the setup entry point (`async_setup_entry`).
-/

namespace Hatchrest

/-- Modelled from the spec: the domain tag of the module (the constant `DOMAIN`
lives in `custom_components/hatchrest/const.py`, which is absent from
`src/`; the spec calls it the "domain tag"). -/
def DOMAIN : String := "hatchrest"

/-- Modelled from the spec: the bluetooth connection kind of the host device
registry (`device_registry.CONNECTION_BLUETOOTH`, external constant; the spec
pairs a "bluetooth" connection kind with the hardware address). -/
def CONNECTION_BLUETOOTH : String := "bluetooth"

/-- Opaque device state blob, refreshed in place on the Device Handle. -/
abbrev DeviceState := Nat

/-- The Device Handle (`PyHatchBabyRestAsync`): exposes `name`, `address`
and an opaque state refreshed in place by `refresh_data()`. -/
structure Device where
  name : String
  address : String
  state : DeviceState
deriving Repr, DecidableEq

/-- A connectable BLE device descriptor, as returned by the host discovery
step `bluetooth.async_ble_device_from_address`. -/
structure BLEDevice where
  name : String
  address : String
deriving Repr, DecidableEq

/-- Modelled from the spec: `connect(descriptor, scan_now: bool) -> handle`
(`pyhatchbabyrest.connect_async`, an external collaborator); the handle
carries the name and address of the descriptor, state blob not yet refreshed. -/
def connect_async (b : BLEDevice) (scan_now : Bool) : Device :=
  { name := b.name, address := b.address, state := 0 }

/-- Exception kinds the refresh path can see: `TimeoutError`, `BleakError`,
or any other exception type (identified by a tag string). -/
inductive Exc where
  | timeoutError
  | bleakError
  | other (tag : String)
deriving Repr, DecidableEq

/-- The outcome of awaiting `self.device.refresh_data()` by itself: either
it completes normally, leaving a new in-place state on the device, or it
raises an exception. -/
inductive RefreshResult where
  | ok (newState : DeviceState)
  | raise (e : Exc)
deriving Repr, DecidableEq

/-- The timeout bound (seconds) of `async_timeout.timeout(10)`. -/
def TIMEOUT_SECONDS : Nat := 10

/-- The `async with async_timeout.timeout(10)` wrapper: if the awaited
refresh takes longer than the bound, the block raises `TimeoutError`;
otherwise the refresh result (normal or raised) passes through. -/
def awaitWithTimeout (duration : Nat) (r : RefreshResult) : RefreshResult :=
  if duration > TIMEOUT_SECONDS then .raise .timeoutError else r

/-- What `HatchRestCoordinator._async_update_data` produces: a normal
return value (the Python function is annotated `-> None`, so the returned
snapshot is `Option DeviceState`), an `UpdateFailed` with a message, or an
uncaught exception propagating out. -/
inductive UpdateOutcome where
  | ok (ret : Option DeviceState)
  | updateFailed (msg : String)
  | propagate (e : Exc)
deriving Repr, DecidableEq

/-- Coordinator state (`HatchRestCoordinator`): the fields set in
`__init__` (`unique_id`, `device`, the framework `update_interval` of 30
seconds) plus the framework-held `data` snapshot. -/
structure Coordinator where
  unique_id : Option String
  device : Device
  data : Option DeviceState
  update_interval : Nat
deriving Repr, DecidableEq

/-- Construction of `HatchRestCoordinator` in `__init__`: 30-second update
interval, given unique id and device, no data yet. -/
def mkCoordinator (unique_id : Option String) (device : Device) : Coordinator :=
  { unique_id := unique_id, device := device, data := none, update_interval := 30 }

/-- One run of `HatchRestCoordinator._async_update_data`, given the
duration the device refresh takes and its result: awaits
`refresh_data()` under the 10-second timeout; `except TimeoutError` raises
`UpdateFailed("Connection timed out while fetching data from device")`;
`except BleakError` raises `UpdateFailed("Failed getting data from
device")`; any other exception propagates; on normal completion the
device state has been refreshed in place and the function returns
`None`. Returns the (possibly device-mutated) coordinator and outcome. -/
def runUpdate (c : Coordinator) (duration : Nat) (r : RefreshResult) :
    Coordinator × UpdateOutcome :=
  match awaitWithTimeout duration r with
  | .ok newState =>
      ({ c with device := { c.device with state := newState } }, .ok none)
  | .raise .timeoutError =>
      (c, .updateFailed "Connection timed out while fetching data from device")
  | .raise .bleakError =>
      (c, .updateFailed "Failed getting data from device")
  | .raise (.other t) => (c, .propagate (.other t))

/-- Modelled from the spec: the refresh cycle of the host framework
(`DataUpdateCoordinator`, external) stores the value returned by
`_async_update_data` as the current `data` snapshot of the coordinator on
success, and leaves `data` untouched when the update raises. -/
def asyncRefresh (c : Coordinator) (duration : Nat) (r : RefreshResult) :
    Coordinator :=
  match runUpdate c duration r with
  | (c2, .ok ret) => { c2 with data := ret }
  | (c2, _) => c2

/-- The base entity adapter (`HatchRestEntity`): `__init__` captures the
device of the coordinator as `_device` and its unique id as
`_attr_unique_id` (surfaced as the `unique_id` property). -/
structure Entity where
  _device : Device
  _attr_unique_id : Option String
deriving Repr, DecidableEq

/-- Construction of `HatchRestEntity` from a coordinator. -/
def mkEntity (c : Coordinator) : Entity :=
  { _device := c.device, _attr_unique_id := c.unique_id }

/-- The `device_name` property: the reported name of the Device Handle. -/
def device_name (e : Entity) : String := e._device.name

/-- Python truthiness of a string: empty is falsy. -/
def truthyStr (s : String) : Bool := s ≠ ""

/-- Python truthiness of an optional string: `None` and empty are falsy. -/
def truthyOptStr : Option String → Bool
  | none => false
  | some s => s ≠ ""

/-- The host `DeviceInfo` descriptor shape used by `device_info`: the
Python sets of tuples are singletons here, modelled as singleton lists. -/
structure DeviceInfo where
  identifiers : List (String × String)
  connections : List (String × String)
  name : String
  manufacturer : String
  model : String
deriving Repr, DecidableEq

/-- The `device_info` property of `HatchRestEntity`: raises
`ValueError("Missing bluetooth address for hatch rest device")` when
`not all((self._device.address, self.unique_id))`, i.e. when the device
address or the unique id is absent or empty; otherwise returns the
descriptor dict with the `(DOMAIN, unique_id)` identifier, the
`(CONNECTION_BLUETOOTH, address)` connection, the device name,
manufacturer "Hatch" and model "Rest". -/
def device_info (e : Entity) : Except String DeviceInfo :=
  if !(truthyStr e._device.address && truthyOptStr e._attr_unique_id) then
    .error "Missing bluetooth address for hatch rest device"
  else
    .ok { identifiers := [(DOMAIN, e._attr_unique_id.getD "")],
          connections := [(CONNECTION_BLUETOOTH, e._device.address)],
          name := device_name e,
          manufacturer := "Hatch",
          model := "Rest" }

/-- A config entry: the configured address (`entry.data[CONF_ADDRESS]`),
the entry id, and the unique id of the entry. -/
structure ConfigEntry where
  address : String
  entry_id : String
  unique_id : Option String
deriving Repr, DecidableEq

/-- The `hass.data[DOMAIN]` registry of coordinators, keyed by entry id. -/
abbrev Registry := List (String × Coordinator)

/-- Dict assignment `registry[k] = v`: replace an existing binding for the
key or append a new one. -/
def setKey (k : String) (v : Coordinator) : Registry → Registry
  | [] => [(k, v)]
  | (k2, v2) :: rest =>
      if k2 == k then (k, v) :: rest else (k2, v2) :: setKey k v rest

/-- The Python `str.upper()` call on the configured address
(`address.upper()`): character-wise upper-casing of the basic latin
letters. -/
def pyUpper (s : String) : String := String.mk (s.data.map Char.toUpper)

/-- The result of `async_setup_entry`: the (possibly updated) registry
together with either a normal `True` return or a raised
`ConfigEntryNotReady` carrying its message. -/
abbrev SetupResult := Registry × Except String Bool

/-- The entry point `async_setup_entry`: looks up a connectable BLE device
by the upper-cased configured address
(`bluetooth.async_ble_device_from_address(hass, address.upper())`); if
none is found, raises `ConfigEntryNotReady` whose message interpolates the
address as configured; otherwise connects (with `scan_now=False`), stores
a new coordinator in the registry under the entry id, and returns `True`.
Discovery is passed in as a function standing for the host bluetooth
lookup. -/
def async_setup_entry (discover : String → Option BLEDevice)
    (registry : Registry) (entry : ConfigEntry) : SetupResult :=
  match discover (pyUpper entry.address) with
  | none =>
      (registry,
       .error ("Could not find Hatch Rest device with address " ++ entry.address))
  | some ble_device =>
      (setKey entry.entry_id
         (mkCoordinator entry.unique_id (connect_async ble_device false)) registry,
       .ok true)

/-- Sample coordinator used in concrete counterexamples and witnesses. -/
def sampleCoordinator : Coordinator :=
  mkCoordinator (some "uid-1")
    { name := "Hatch Rest", address := "AA:BB:CC:DD:EE:FF", state := 0 }


/-- Claim C1: whenever the refresh of the Device Handle does not complete
within the 10-second timeout bound (the wrapper raises `TimeoutError`),
`_async_update_data` raises `UpdateFailed` whose message is exactly
"Connection timed out while fetching data from device". -/
theorem timeout_raises_update_failed (c : Coordinator) (duration : Nat)
    (r : RefreshResult) (h : duration > TIMEOUT_SECONDS) :
    (runUpdate c duration r).2 =
      .updateFailed "Connection timed out while fetching data from device" := by
  simp [runUpdate, awaitWithTimeout, h]

/-- Claim C1 witness: a refresh taking 11 seconds exceeds the bound and
yields the timeout message. -/
theorem timeout_raises_update_failed_witness :
    11 > TIMEOUT_SECONDS ∧
      (runUpdate sampleCoordinator 11 (.ok 5)).2 =
        .updateFailed "Connection timed out while fetching data from device" :=
  ⟨by decide, timeout_raises_update_failed sampleCoordinator 11 (.ok 5) (by decide)⟩

/-- Claim C2: whenever the refresh of the Device Handle raises `BleakError`
within the timeout bound, `_async_update_data` raises `UpdateFailed` whose
message is exactly "Failed getting data from device". -/
theorem bleak_raises_update_failed (c : Coordinator) (duration : Nat)
    (h : duration ≤ TIMEOUT_SECONDS) :
    (runUpdate c duration (.raise .bleakError)).2 =
      .updateFailed "Failed getting data from device" := by
  have hn : ¬ duration > TIMEOUT_SECONDS := Nat.not_lt.mpr h
  simp [runUpdate, awaitWithTimeout, hn]

/-- Claim C2 witness: a `BleakError` after 3 seconds yields the transport
failure message. -/
theorem bleak_raises_update_failed_witness :
    3 ≤ TIMEOUT_SECONDS ∧
      (runUpdate sampleCoordinator 3 (.raise .bleakError)).2 =
        .updateFailed "Failed getting data from device" :=
  ⟨by decide, bleak_raises_update_failed sampleCoordinator 3 (by decide)⟩

/-- Claim C3 counterexample: a successful refresh within the bound makes
`_async_update_data` return `None` (the function is annotated `-> None`),
so the value the coordinator records as its `data` snapshot is absent,
not the refreshed device state. -/
theorem success_returns_none_counterexample :
    (runUpdate sampleCoordinator 0 (.ok 5)).2 = .ok none ∧
      (asyncRefresh sampleCoordinator 0 (.ok 5)).data = none :=
  ⟨rfl, rfl⟩

/-- Claim C3 amended: on a successful refresh within the timeout,
`_async_update_data` returns `None`; the refreshed state lives in place on
the device object the coordinator holds (its `device.state` equals the
refreshed state), while the `data` snapshot of the coordinator stays
`None`. -/
theorem success_refreshes_in_place (c : Coordinator) (duration : Nat)
    (r : RefreshResult) (ns : DeviceState)
    (h : awaitWithTimeout duration r = .ok ns) :
    (runUpdate c duration r).2 = .ok none ∧
      (runUpdate c duration r).1.device.state = ns ∧
      (asyncRefresh c duration r).data = none := by
  simp [asyncRefresh, runUpdate, h]

/-- Claim C3 amended witness: a refresh completing instantly with state 7
leaves state 7 on the device and `None` as the coordinator data. -/
theorem success_refreshes_in_place_witness :
    awaitWithTimeout 0 (.ok 7) = .ok 7 ∧
      ((runUpdate sampleCoordinator 0 (.ok 7)).2 = .ok none ∧
        (runUpdate sampleCoordinator 0 (.ok 7)).1.device.state = 7 ∧
        (asyncRefresh sampleCoordinator 0 (.ok 7)).data = none) :=
  ⟨rfl, success_refreshes_in_place sampleCoordinator 0 (.ok 7) 7 rfl⟩

/-- Claim C4: whenever `_async_update_data` raises `UpdateFailed` (either
recognized failure kind), the coordinator is left unchanged: snapshot,
device reference and unique id all keep their previous values. -/
theorem failed_update_leaves_coordinator_unchanged (c : Coordinator)
    (duration : Nat) (r : RefreshResult) (msg : String)
    (h : (runUpdate c duration r).2 = .updateFailed msg) :
    (runUpdate c duration r).1 = c := by
  unfold runUpdate at h ⊢
  cases hw : awaitWithTimeout duration r with
  | ok ns => rw [hw] at h; exact absurd h (by simp)
  | raise e => cases e <;> rfl

/-- Claim C4 witness: a transport failure at 0 seconds leaves the sample
coordinator unchanged. -/
theorem failed_update_leaves_coordinator_unchanged_witness :
    (runUpdate sampleCoordinator 0 (.raise .bleakError)).2 =
        .updateFailed "Failed getting data from device" ∧
      (runUpdate sampleCoordinator 0 (.raise .bleakError)).1 = sampleCoordinator :=
  ⟨rfl, failed_update_leaves_coordinator_unchanged sampleCoordinator 0
    (.raise .bleakError) "Failed getting data from device" rfl⟩

/-- Claim C5: `TimeoutError` and `BleakError` are the only exception kinds
converted into `UpdateFailed`: any other exception raised within the bound
propagates unchanged, and every `UpdateFailed` outcome arises from one of
those two exception kinds reaching the handlers. -/
theorem only_two_kinds_classified (c : Coordinator) (duration : Nat)
    (r : RefreshResult) :
    (∀ t, duration ≤ TIMEOUT_SECONDS →
        (runUpdate c duration (.raise (.other t))).2 = .propagate (.other t)) ∧
      (∀ msg, (runUpdate c duration r).2 = .updateFailed msg →
        awaitWithTimeout duration r = .raise .timeoutError ∨
          awaitWithTimeout duration r = .raise .bleakError) := by
  constructor
  · intro t ht
    have hn : ¬ duration > TIMEOUT_SECONDS := Nat.not_lt.mpr ht
    simp [runUpdate, awaitWithTimeout, hn]
  · intro msg h
    unfold runUpdate at h
    cases hw : awaitWithTimeout duration r with
    | ok ns => rw [hw] at h; exact absurd h (by simp)
    | raise e =>
      cases e with
      | timeoutError => exact Or.inl rfl
      | bleakError => exact Or.inr rfl
      | other t => rw [hw] at h; exact absurd h (by simp)

/-- Claim C5 witness: a `ValueError` raised within the bound propagates
unconverted, and a concrete `UpdateFailed` outcome traces back to a
`BleakError`. -/
theorem only_two_kinds_classified_witness :
    (runUpdate sampleCoordinator 0 (.raise (.other "ValueError"))).2 =
        .propagate (.other "ValueError") ∧
      (awaitWithTimeout 3 (.raise .bleakError) = .raise .timeoutError ∨
        awaitWithTimeout 3 (.raise .bleakError) = .raise .bleakError) :=
  ⟨(only_two_kinds_classified sampleCoordinator 0
      (.raise (.other "ValueError"))).1 "ValueError" (by decide),
    (only_two_kinds_classified sampleCoordinator 3 (.raise .bleakError)).2
      "Failed getting data from device" rfl⟩

/-- Claim C6: `device_info` raises the missing-identity `ValueError` if and
only if the device address is empty or the unique id is absent or empty;
when both are present and nonempty it returns a descriptor normally. -/
theorem device_info_error_iff_missing_identity (e : Entity) :
    (device_info e = .error "Missing bluetooth address for hatch rest device" ↔
        (e._device.address = "" ∨ e._attr_unique_id = none ∨
          e._attr_unique_id = some "")) ∧
      ((∃ d, device_info e = .ok d) ↔
        ¬(e._device.address = "" ∨ e._attr_unique_id = none ∨
          e._attr_unique_id = some "")) := by
  unfold device_info truthyStr truthyOptStr
  cases hu : e._attr_unique_id with
  | none => simp
  | some s =>
    by_cases hs : s = "" <;> by_cases ha : e._device.address = "" <;>
      simp [hs, ha]

/-- Claim C7: when the device address and the unique id are both present
and nonempty, `device_info` returns exactly the descriptor with identifier
set containing `(DOMAIN, unique id)`, connection set containing
`(CONNECTION_BLUETOOTH, address)`, the reported device name, manufacturer
"Hatch" and model "Rest". -/
theorem device_info_descriptor (e : Entity) (u : String)
    (ha : e._device.address ≠ "") (hu : e._attr_unique_id = some u)
    (hu2 : u ≠ "") :
    device_info e = .ok
      { identifiers := [(DOMAIN, u)],
        connections := [(CONNECTION_BLUETOOTH, e._device.address)],
        name := e._device.name,
        manufacturer := "Hatch",
        model := "Rest" } := by
  unfold device_info truthyStr truthyOptStr device_name
  simp [hu, ha, hu2]

/-- Claim C7 witness: the entity built from the sample coordinator yields
the fully populated descriptor. -/
theorem device_info_descriptor_witness :
    (mkEntity sampleCoordinator)._device.address ≠ "" ∧
      (mkEntity sampleCoordinator)._attr_unique_id = some "uid-1" ∧
      (device_info (mkEntity sampleCoordinator) = .ok
        { identifiers := [(DOMAIN, "uid-1")],
          connections :=
            [(CONNECTION_BLUETOOTH, (mkEntity sampleCoordinator)._device.address)],
          name := (mkEntity sampleCoordinator)._device.name,
          manufacturer := "Hatch",
          model := "Rest" }) :=
  ⟨by decide, rfl,
    device_info_descriptor (mkEntity sampleCoordinator) "uid-1"
      (by decide) rfl (by decide)⟩

/-- Claim C8: when discovery by the upper-cased configured address yields
no connectable device, `async_setup_entry` leaves the registry untouched
(no coordinator is registered) and raises `ConfigEntryNotReady` whose
message contains the configured address. -/
theorem setup_not_ready_when_not_discovered
    (discover : String → Option BLEDevice) (registry : Registry)
    (entry : ConfigEntry) (h : discover (pyUpper entry.address) = none) :
    (async_setup_entry discover registry entry).1 = registry ∧
      (async_setup_entry discover registry entry).2 =
        .error ("Could not find Hatch Rest device with address " ++
          entry.address) ∧
      ∃ p, "Could not find Hatch Rest device with address " ++ entry.address =
        p ++ entry.address := by
  unfold async_setup_entry
  rw [h]
  exact ⟨rfl, rfl, "Could not find Hatch Rest device with address ", rfl⟩

/-- Claim C8 witness: an address nowhere discoverable leads to the
not-ready error with the address in the message and an empty registry. -/
theorem setup_not_ready_when_not_discovered_witness :
    (fun _ : String => (none : Option BLEDevice)) (pyUpper "AA:BB:CC:DD:EE:FF")
        = none ∧
      ((async_setup_entry (fun _ => none) []
          { address := "AA:BB:CC:DD:EE:FF", entry_id := "e1",
            unique_id := some "uid-1" }).1 = [] ∧
        (async_setup_entry (fun _ => none) []
          { address := "AA:BB:CC:DD:EE:FF", entry_id := "e1",
            unique_id := some "uid-1" }).2 =
          .error ("Could not find Hatch Rest device with address " ++
            "AA:BB:CC:DD:EE:FF") ∧
        ∃ p, "Could not find Hatch Rest device with address " ++
            "AA:BB:CC:DD:EE:FF" = p ++ "AA:BB:CC:DD:EE:FF") :=
  ⟨rfl, setup_not_ready_when_not_discovered (fun _ => none) []
    { address := "AA:BB:CC:DD:EE:FF", entry_id := "e1",
      unique_id := some "uid-1" } rfl⟩

/-- Claim C10: discovery is performed on the upper-cased form of the
configured address (setup succeeds exactly when the discovery function
answers at the upper-cased key), while the not-ready message on failure
contains the address exactly as configured. -/
theorem discovery_uses_uppercased_address
    (discover : String → Option BLEDevice) (registry : Registry)
    (entry : ConfigEntry) :
    (∀ b, discover (pyUpper entry.address) = some b →
        (async_setup_entry discover registry entry).2 = .ok true) ∧
      (discover (pyUpper entry.address) = none →
        (async_setup_entry discover registry entry).2 =
          .error ("Could not find Hatch Rest device with address " ++
            entry.address)) := by
  constructor
  · intro b hb
    unfold async_setup_entry
    rw [hb]
  · intro hn
    unfold async_setup_entry
    rw [hn]

/-- Claim C10 witness: a lower-case configured address still discovers a
device registered only under its upper-case form, so setup succeeds. -/
theorem discovery_uses_uppercased_address_witness :
    (async_setup_entry
        (fun s => if s == "AA:BB:CC:DD:EE:FF" then
            some { name := "Hatch Rest", address := "AA:BB:CC:DD:EE:FF" }
          else none)
        [] { address := "aa:bb:cc:dd:ee:ff", entry_id := "e1",
             unique_id := some "uid-1" }).2 = .ok true :=
  (discovery_uses_uppercased_address
      (fun s => if s == "AA:BB:CC:DD:EE:FF" then
          some { name := "Hatch Rest", address := "AA:BB:CC:DD:EE:FF" }
        else none)
      [] { address := "aa:bb:cc:dd:ee:ff", entry_id := "e1",
           unique_id := some "uid-1" }).1
    { name := "Hatch Rest", address := "AA:BB:CC:DD:EE:FF" } (by decide)

end Hatchrest
